import Mathlib

/-!
Verification of the Mongo-to-Postgres batch migration driver
(`Vulcan.mongoToSql` in
`packages/lesswrong/lib/collections/databaseMetadata/collection.ts`).

The driver itself is embedded directly from the source.  Collaborators that
the source file only imports (`Table.fromCollection`, `CreateTableQuery`,
`CreateIndexQuery`, `InsertQuery` execution semantics,
`forEachDocumentBatchInCollection`) are modelled from the specification and
are marked as such in their doc comments.  External SQL execution is an
oracle parameter: each statement execution is represented by an
`Except String Unit` result supplied to the model.
-/

namespace MongoToSql

/-- Value of the `scoreExceeded75Date` field of a `Posts` document: the
document schema allows a boolean sentinel or a date (modelled as a `Nat`
timestamp), and the field may be absent. -/
inductive BoolOrDate
  | bool (b : Bool)
  | date (t : Nat)
  | absent
deriving DecidableEq, Repr

/-- `typeof x === "boolean"` on a `scoreExceeded75Date` value. -/
def BoolOrDate.isBoolean : BoolOrDate → Bool
  | .bool _ => true
  | _ => false

/-- A source document, with the fields the migration driver touches:
`_id` (used for the failed-identifier list), `title` and
`scoreExceeded75Date` (both rewritten by the `Posts` formatter).
`title := none` models an absent/null title. -/
structure DbPost where
  _id : String
  title : Option String
  scoreExceeded75Date : BoolOrDate
deriving DecidableEq, Repr

/-- JavaScript truthiness test used by `if (!document.title)`: an absent
(undefined/null) title and the empty string are falsy. -/
def jsFalsyTitle : Option String → Bool
  | none => true
  | some s => s == ""

/-- `formatters.Posts` from the source: if `scoreExceeded75Date` is a
boolean (`typeof document.scoreExceeded75Date === "boolean"`) it is
overwritten with `new Date(Date.now())` — `now` is the timestamp at the
moment the formatter runs; if the title is falsy it is overwritten with
the empty string.  The JavaScript function assigns to the fields of its
argument object in place and returns that same object; the returned value
here is therefore also the post-call state of the argument object. -/
def formatPost (now : Nat) (document : DbPost) : DbPost :=
  let document :=
    if document.scoreExceeded75Date.isBoolean then
      { document with scoreExceeded75Date := BoolOrDate.date now }
    else document
  let document :=
    if jsFalsyTitle document.title then
      { document with title := some "" }
    else document
  document

/-- The module-level formatter table `formatters`: it has exactly one
entry, keyed `Posts`. -/
def formatters (collectionName : String) : Option (Nat → DbPost → DbPost) :=
  if collectionName = "Posts" then some formatPost else none

/-- `formatters[collectionName] ?? ((document) => document)` from the
source: the registered formatter, or the identity function when the
collection has no entry. -/
def formatData (collectionName : String) (now : Nat) : DbPost → DbPost :=
  match formatters collectionName with
  | some f => f now
  | none => fun document => document

/-- The state of the source-cursor batch objects after
`documents.map(formatData)`: since the formatter assigns to its argument's
fields in place, the objects produced by the source store hold the
formatter's output after the map. -/
def sourceBatchAfterFormat (collectionName : String) (now : Nat)
    (documents : List DbPost) : List DbPost :=
  documents.map (formatData collectionName now)

/-- JavaScript `Array.prototype.indexOf` on a string array: the index of
the first occurrence, or `-1` when absent. -/
def jsIndexOf (array : List String) (x : String) : Int :=
  let i := array.indexOf x
  if i = array.length then -1 else (i : Int)

/-- `skippedFields` from the source:
`schemaFields.filter((field) => tableFields.indexOf(field) < 0)`. -/
def skippedFields (schemaFields tableFields : List String) : List String :=
  schemaFields.filter (fun field => decide (jsIndexOf tableFields field < 0))

theorem jsIndexOf_neg_iff (array : List String) (x : String) :
    jsIndexOf array x < 0 ↔ x ∉ array := by
  unfold jsIndexOf
  by_cases h : x ∈ array
  · have hlt : array.indexOf x < array.length := List.indexOf_lt_length.mpr h
    rw [if_neg (Nat.ne_of_lt hlt)]
    constructor
    · intro hc
      exact absurd hc (by omega)
    · intro hc
      exact absurd h hc
  · have heq : array.indexOf x = array.length := by
      by_contra hne
      have : array.indexOf x < array.length := by
        have := List.indexOf_le_length (a := x) (l := array)
        omega
      exact h (List.indexOf_lt_length.mp this)
    simp [heq, h]

theorem mem_skippedFields_iff (schemaFields tableFields : List String)
    (f : String) :
    f ∈ skippedFields schemaFields tableFields ↔
      f ∈ schemaFields ∧ f ∉ tableFields := by
  unfold skippedFields
  rw [List.mem_filter]
  constructor
  · rintro ⟨hmem, hdec⟩
    exact ⟨hmem, (jsIndexOf_neg_iff tableFields f).mp (of_decide_eq_true hdec)⟩
  · rintro ⟨hmem, hnot⟩
    exact ⟨hmem, decide_eq_true ((jsIndexOf_neg_iff tableFields f).mpr hnot)⟩

/-- Modelled from the spec: the Table Model — the in-memory relational
table derived by `Table.fromCollection` (not under `src/`): a name, the
list of field names with a representable relational type (`getFields`),
and the list of index specifications (`getIndexes`, each identified here
by a name). -/
structure Table where
  name : String
  fields : List String
  indexes : List String
deriving DecidableEq, Repr

/-- Number of columns of the derived table. -/
def fieldCount (t : Table) : Nat :=
  t.fields.length

/-- A collection as the driver sees it: its name, the schema field names
(`Object.keys(collection._schemaFields)`), the derived table
(`Table.fromCollection`), and the source documents in cursor order. -/
structure Collection where
  name : String
  schemaFields : List String
  table : Table
  documents : List DbPost
deriving Repr

/-- `batchSize` from the source: the constant 400, chosen because "the
largest collections have ~150 fields". -/
def batchSize : Nat := 400

/-- The Postgres protocol's parameter-index ceiling quoted in the source
comment: parameter indexes are a U16, "so there can't be more than
65534". -/
def maxParameters : Nat := 65534

/-- Recursion core of `chunks`, structural on a fuel argument that is at
least the list length at every call. -/
def chunksAux (n : Nat) : Nat → List α → List (List α)
  | _, [] => []
  | 0, l => [l]
  | fuel + 1, x :: xs => (x :: xs.take (n - 1)) :: chunksAux n fuel (xs.drop (n - 1))

/-- Modelled from the spec: `forEachDocumentBatchInCollection` (not under
`src/`) streams the source collection in fixed-size batches in cursor
order; each batch has `n` documents except possibly the last. -/
def chunks (n : Nat) (l : List α) : List (List α) :=
  chunksAux n l.length l

theorem chunksAux_flatten (n : Nat) :
    ∀ (fuel : Nat) (l : List α), l.length ≤ fuel →
      (chunksAux n fuel l).flatten = l := by
  intro fuel
  induction fuel with
  | zero =>
    intro l hl
    have : l = [] := List.length_eq_zero.mp (Nat.le_zero.mp hl)
    subst this
    rfl
  | succ fuel ih =>
    intro l hl
    match l with
    | [] => rfl
    | x :: xs =>
      show ((x :: xs.take (n - 1)) :: chunksAux n fuel (xs.drop (n - 1))).flatten
        = x :: xs
      rw [List.flatten_cons, ih (xs.drop (n - 1))
        (by simp only [List.length_drop]; simp at hl; omega)]
      simp [List.take_append_drop]

theorem chunks_flatten (n : Nat) (l : List α) : (chunks n l).flatten = l :=
  chunksAux_flatten n l.length l (Nat.le_refl _)

theorem chunksAux_length_le (n : Nat) :
    ∀ (fuel : Nat) (l : List α), l.length ≤ fuel →
      ∀ b ∈ chunksAux n fuel l, b.length ≤ max n 1 := by
  intro fuel
  induction fuel with
  | zero =>
    intro l hl b hb
    have : l = [] := List.length_eq_zero.mp (Nat.le_zero.mp hl)
    subst this
    cases hb
  | succ fuel ih =>
    intro l hl b hb
    match l, hb with
    | x :: xs, hb =>
      rcases List.mem_cons.mp hb with h | h
      · subst h
        simp only [List.length_cons]
        have := List.length_take_le (n - 1) xs
        omega
      · exact ih (xs.drop (n - 1))
          (by simp only [List.length_drop]; simp at hl; omega) b h

theorem chunks_length_le (n : Nat) (l : List α) :
    ∀ b ∈ chunks n l, b.length ≤ max n 1 :=
  chunksAux_length_le n l.length l (Nat.le_refl _)

/-- One observable step of a migration run: an execution against the
destination (`sql.unsafe` of a CREATE TABLE, CREATE INDEX or batch INSERT
statement), a compilation of the CREATE TABLE statement, or one of the
operator-facing log messages the claims mention. -/
inductive Event
  | compileCreateTable
  | execCreateTable
  | execCreateIndex (index : String)
  | execInsertBatch (ids : List String)
  | warnSkippedFields (fields : List String)
  | warnZeroIndexes
  | logImportErrors (ids : List String)
deriving DecidableEq, Repr

/-- Whether an event is an execution against the destination store. -/
def Event.isDestinationExec : Event → Bool
  | .execCreateTable => true
  | .execCreateIndex _ => true
  | .execInsertBatch _ => true
  | _ => false

/-- Whether an event is a batch INSERT execution (the copying phase). -/
def Event.isInsertBatch : Event → Bool
  | .execInsertBatch _ => true
  | _ => false

/-- The outcome of a run together with its observable trace and the
accumulated `errorIds` list.  `outcome = .error e` means the exception `e`
escaped `mongoToSql`. -/
structure RunResult where
  events : List Event
  errorIds : List String
  outcome : Except String Unit
deriving Repr

/-- Modelled from the spec: `CreateTableQuery.compile` (not under `src/`)
"fails to compile if the Table has zero fields (defensive: refuses to
create an empty table)"; otherwise it produces a compiled statement. -/
def createTableCompile (t : Table) : Except String Unit :=
  if t.fields.length = 0 then Except.error "CreateTableQuery: zero fields"
  else Except.ok ()

/-- The index-creation loop from the source: for each index, compile a
`CreateIndexQuery` and execute it with `sql.unsafe`.  The loop body has no
try/catch, so the first execution error escapes; `indexExec` is the
oracle giving each execution's result.  Returns the trace of attempted
executions and the loop's outcome. -/
def runIndexes (indexExec : String → Except String Unit) :
    List String → List Event × Except String Unit
  | [] => ([], Except.ok ())
  | i :: rest =>
    match indexExec i with
    | Except.error e => ([Event.execCreateIndex i], Except.error e)
    | Except.ok () =>
      let r := runIndexes indexExec rest
      (Event.execCreateIndex i :: r.1, r.2)

/-- The copying phase from the source: for each batch, map `formatData`
over the documents, compile an `InsertQuery` with
`conflictStrategy: "ignore"`, and execute it inside a try/catch; on an
execution error the batch's document `_id`s are appended to `errorIds`
and the loop continues.  `batchExec k` is the oracle giving the k-th
batch's execution result.  Returns the trace and the final `errorIds`. -/
def runBatches (collectionName : String) (now : Nat)
    (batchExec : Nat → Except String Unit) :
    Nat → List (List DbPost) → List Event × List String
  | _, [] => ([], [])
  | k, b :: rest =>
    let ev := Event.execInsertBatch
      ((b.map (formatData collectionName now)).map DbPost._id)
    let fails :=
      match batchExec k with
      | Except.error _ => b.map DbPost._id
      | Except.ok () => []
    let r := runBatches collectionName now batchExec (k + 1) rest
    (ev :: r.1, fails ++ r.2)

/-- `Vulcan.mongoToSql` from the source, as a function of the collection,
the migration timestamp `now`, and the execution oracles for the CREATE
TABLE statement, each CREATE INDEX statement and each batch INSERT.
Phases, in source order: compute and warn about skipped fields; compile
and execute CREATE TABLE inside a try/catch whose handler logs and
rethrows the same error; execute the CREATE INDEX statements with no
error handling; stream the documents in `batchSize` batches through
`formatData` and INSERT with per-batch error isolation; log the
accumulated error ids. -/
def mongoToSql (c : Collection) (now : Nat)
    (createTableExec : Except String Unit)
    (indexExec : String → Except String Unit)
    (batchExec : Nat → Except String Unit) : RunResult :=
  let skipped := skippedFields c.schemaFields c.table.fields
  let warnEvs :=
    if skipped.length ≠ 0 then [Event.warnSkippedFields skipped] else []
  match createTableCompile c.table with
  | Except.error e =>
    { events := warnEvs ++ [Event.compileCreateTable]
      errorIds := []
      outcome := Except.error e }
  | Except.ok () =>
    match createTableExec with
    | Except.error e =>
      { events := warnEvs ++ [Event.compileCreateTable, Event.execCreateTable]
        errorIds := []
        outcome := Except.error e }
    | Except.ok () =>
      let zeroIdxEvs :=
        if c.table.indexes.length = 0 then [Event.warnZeroIndexes] else []
      let idx := runIndexes indexExec c.table.indexes
      match idx.2 with
      | Except.error e =>
        { events := warnEvs ++ [Event.compileCreateTable, Event.execCreateTable]
            ++ zeroIdxEvs ++ idx.1
          errorIds := []
          outcome := Except.error e }
      | Except.ok () =>
        let copy := runBatches c.name now batchExec 0
          (chunks batchSize c.documents)
        let errEvs :=
          if copy.2.length ≠ 0 then [Event.logImportErrors copy.2] else []
        { events := warnEvs ++ [Event.compileCreateTable, Event.execCreateTable]
            ++ zeroIdxEvs ++ idx.1 ++ copy.1 ++ errEvs
          errorIds := copy.2
          outcome := Except.ok () }

/-- The compiled INSERT statement's inputs as the source constructs them:
`new InsertQuery(table, documents.map(formatData), {}, {conflictStrategy:
"ignore"})`. -/
structure InsertQuery where
  table : Table
  rows : List DbPost
  conflictStrategy : String
deriving Repr

/-- The `InsertQuery` the copying phase builds for one batch. -/
def batchInsertQuery (c : Collection) (now : Nat)
    (documents : List DbPost) : InsertQuery :=
  { table := c.table
    rows := documents.map (formatData c.name now)
    conflictStrategy := "ignore" }

/-- Modelled from the spec: destination-side effect of one row of an
INSERT executed with conflict strategy "ignore" — a row whose primary key
(`_id`) collides with an existing destination row is skipped, otherwise
the row is appended. -/
def insertRowIgnore (dest : List DbPost) (d : DbPost) : List DbPost :=
  if (dest.map DbPost._id).contains d._id then dest else dest ++ [d]

/-- Modelled from the spec: destination row set after executing an INSERT
of `rows` with conflict strategy "ignore". -/
def insertIgnore (dest : List DbPost) (rows : List DbPost) : List DbPost :=
  rows.foldl insertRowIgnore dest

/-- Destination row set after the copying phase of one `mongoToSql` run
in which every batch INSERT executes successfully: the batches are folded
through the "ignore"-conflict executor in cursor order. -/
def destAfterCopy (dest : List DbPost) (c : Collection) (now : Nat) :
    List DbPost :=
  (chunks batchSize c.documents).foldl
    (fun acc b => insertIgnore acc (batchInsertQuery c now b).rows) dest

theorem formatPost_id (now : Nat) (d : DbPost) :
    (formatPost now d)._id = d._id := by
  unfold formatPost
  dsimp only
  split <;> split <;> rfl

theorem formatData_id (collectionName : String) (now : Nat) (d : DbPost) :
    (formatData collectionName now d)._id = d._id := by
  unfold formatData formatters
  by_cases h : collectionName = "Posts"
  · simp [h, formatPost_id]
  · simp [h]

theorem mem_ids_insertRowIgnore (dest : List DbPost) (d : DbPost)
    (x : String) (hx : x ∈ dest.map DbPost._id) :
    x ∈ (insertRowIgnore dest d).map DbPost._id := by
  unfold insertRowIgnore
  split
  · exact hx
  · simp only [List.map_append]
    exact List.mem_append_left _ hx

theorem self_mem_ids_insertRowIgnore (dest : List DbPost) (d : DbPost) :
    d._id ∈ (insertRowIgnore dest d).map DbPost._id := by
  unfold insertRowIgnore
  split
  · next h => simpa using h
  · simp

theorem mem_ids_insertIgnore (rows : List DbPost) :
    ∀ (dest : List DbPost) (x : String), x ∈ dest.map DbPost._id →
      x ∈ (insertIgnore dest rows).map DbPost._id := by
  induction rows with
  | nil => intro dest x hx; exact hx
  | cons d rest ih =>
    intro dest x hx
    exact ih (insertRowIgnore dest d) x (mem_ids_insertRowIgnore dest d x hx)

theorem row_mem_ids_insertIgnore (rows : List DbPost) :
    ∀ (dest : List DbPost) (d : DbPost), d ∈ rows →
      d._id ∈ (insertIgnore dest rows).map DbPost._id := by
  induction rows with
  | nil => intro dest d hd; cases hd
  | cons r rest ih =>
    intro dest d hd
    rcases List.mem_cons.mp hd with h | h
    · subst h
      exact mem_ids_insertIgnore rest (insertRowIgnore dest d) d._id
        (self_mem_ids_insertRowIgnore dest d)
    · exact ih (insertRowIgnore dest r) d h

theorem insertIgnore_eq_of_ids_mem (rows : List DbPost) :
    ∀ dest : List DbPost, (∀ d ∈ rows, d._id ∈ dest.map DbPost._id) →
      insertIgnore dest rows = dest := by
  induction rows with
  | nil => intro dest _; rfl
  | cons d rest ih =>
    intro dest h
    have hd : insertRowIgnore dest d = dest := by
      unfold insertRowIgnore
      rw [if_pos]
      simpa using h d (List.mem_cons_self d rest)
    show insertIgnore (insertRowIgnore dest d) rest = dest
    rw [hd]
    exact ih dest (fun x hx => h x (List.mem_cons_of_mem d hx))

theorem foldl_insertIgnore_flatten (f : DbPost → DbPost) :
    ∀ (bs : List (List DbPost)) (dest : List DbPost),
      bs.foldl (fun acc b => insertIgnore acc (b.map f)) dest =
        insertIgnore dest (bs.flatten.map f) := by
  intro bs
  induction bs with
  | nil => intro dest; rfl
  | cons b rest ih =>
    intro dest
    simp only [List.foldl_cons, List.flatten_cons, List.map_append]
    rw [ih]
    unfold insertIgnore
    rw [List.foldl_append]

theorem destAfterCopy_eq (dest : List DbPost) (c : Collection) (now : Nat) :
    destAfterCopy dest c now =
      insertIgnore dest (c.documents.map (formatData c.name now)) := by
  unfold destAfterCopy batchInsertQuery
  have := foldl_insertIgnore_flatten (formatData c.name now)
    (chunks batchSize c.documents) dest
  simp only at this
  rw [this, chunks_flatten]

/-- Whether an execution oracle result is a success. -/
def isOkE : Except String Unit → Bool
  | Except.ok _ => true
  | Except.error _ => false

/-- Whether an event is a CREATE INDEX execution. -/
def Event.isIndexExec : Event → Bool
  | .execCreateIndex _ => true
  | _ => false

theorem createTableCompile_ok (t : Table) (h : t.fields ≠ []) :
    createTableCompile t = Except.ok () := by
  unfold createTableCompile
  rw [if_neg]
  simpa [List.length_eq_zero] using h

theorem runIndexes_all_ok (indexExec : String → Except String Unit) :
    ∀ idxs : List String, (∀ i ∈ idxs, indexExec i = Except.ok ()) →
      runIndexes indexExec idxs = (idxs.map Event.execCreateIndex, Except.ok ()) := by
  intro idxs
  induction idxs with
  | nil => intro _; rfl
  | cons i rest ih =>
    intro h
    unfold runIndexes
    rw [h i (List.mem_cons_self i rest)]
    rw [ih (fun j hj => h j (List.mem_cons_of_mem i hj))]
    rfl

theorem runIndexes_first_error (indexExec : String → Except String Unit)
    (i : String) (post : List String) (e : String)
    (hi : indexExec i = Except.error e) :
    ∀ pre : List String, (∀ j ∈ pre, indexExec j = Except.ok ()) →
      runIndexes indexExec (pre ++ i :: post) =
        (pre.map Event.execCreateIndex ++ [Event.execCreateIndex i],
          Except.error e) := by
  intro pre
  induction pre with
  | nil =>
    intro _
    rw [List.nil_append]
    unfold runIndexes
    rw [hi]
    rfl
  | cons j rest ih =>
    intro h
    have hj : indexExec j = Except.ok () := h j (List.mem_cons_self j rest)
    show runIndexes indexExec (j :: (rest ++ i :: post)) = _
    unfold runIndexes
    rw [hj, ih (fun x hx => h x (List.mem_cons_of_mem j hx))]
    rfl

theorem runBatches_snd (collectionName : String) (now : Nat)
    (batchExec : Nat → Except String Unit) :
    ∀ (bs : List (List DbPost)) (k : Nat),
      (runBatches collectionName now batchExec k bs).2 =
        (((List.enumFrom k bs).filter
            (fun p => !(isOkE (batchExec p.1)))).map
          (fun p => p.2.map DbPost._id)).flatten := by
  intro bs
  induction bs with
  | nil => intro k; rfl
  | cons b rest ih =>
    intro k
    unfold runBatches
    dsimp only
    rw [ih (k + 1)]
    cases hk : batchExec k with
    | ok u =>
      cases u
      simp [List.enumFrom, List.filter_cons, hk, isOkE]
    | error e =>
      simp [List.enumFrom, List.filter_cons, hk, isOkE]

theorem runBatches_fst (collectionName : String) (now : Nat)
    (batchExec : Nat → Except String Unit) :
    ∀ (bs : List (List DbPost)) (k : Nat),
      (runBatches collectionName now batchExec k bs).1 =
        bs.map (fun b => Event.execInsertBatch
          ((b.map (formatData collectionName now)).map DbPost._id)) := by
  intro bs
  induction bs with
  | nil => intro k; rfl
  | cons b rest ih =>
    intro k
    unfold runBatches
    simp only [List.map_cons]
    rw [ih (k + 1)]

theorem mongoToSql_copy_phase (c : Collection) (now : Nat)
    (indexExec : String → Except String Unit)
    (batchExec : Nat → Except String Unit)
    (h1 : c.table.fields ≠ [])
    (hidx : (runIndexes indexExec c.table.indexes).2 = Except.ok ()) :
    (mongoToSql c now (Except.ok ()) indexExec batchExec).outcome =
        Except.ok () ∧
      (mongoToSql c now (Except.ok ()) indexExec batchExec).errorIds =
        (runBatches c.name now batchExec 0 (chunks batchSize c.documents)).2 := by
  unfold mongoToSql
  rw [createTableCompile_ok c.table h1]
  dsimp only
  rw [hidx]
  exact ⟨rfl, rfl⟩

theorem map_eq_self_of_eq {α : Type} (f : α → α) :
    ∀ l : List α, (∀ x ∈ l, f x = x) → l.map f = l := by
  intro l
  induction l with
  | nil => intro _; rfl
  | cons x xs ih =>
    intro h
    simp only [List.map_cons]
    rw [h x (List.mem_cons_self x xs),
      ih (fun y hy => h y (List.mem_cons_of_mem x hy))]

theorem formatPost_eq_self (now : Nat) (d : DbPost)
    (h1 : d.scoreExceeded75Date.isBoolean = false)
    (h2 : jsFalsyTitle d.title = false) :
    formatPost now d = d := by
  simp [formatPost, h1, h2]

/-- A Posts document whose `scoreExceeded75Date` is the boolean `false`,
used to exercise the formatter. -/
def postBoolFalse : DbPost :=
  { _id := "p1", title := some "t", scoreExceeded75Date := BoolOrDate.bool false }

/-- C3 counterexample: the `Posts` formatter tests
`typeof document.scoreExceeded75Date === "boolean"`, so it also rewrites a
document whose `scoreExceeded75Date` is the boolean `false`; the claim's
"changes scoreExceeded75Date only for documents where it equals true" is
violated at this document. -/
theorem C3_counterexample :
    postBoolFalse.scoreExceeded75Date ≠ BoolOrDate.bool true ∧
      (formatPost 5 postBoolFalse).scoreExceeded75Date ≠
        postBoolFalse.scoreExceeded75Date := by
  exact ⟨by decide, by decide⟩

/-- C3 (amended): for the Posts collection, the formatter applied before
INSERT compilation replaces `scoreExceeded75Date` by the migration
timestamp exactly for the documents whose value is a boolean (`true` or
`false`), and leaves the field unchanged for every other value. -/
theorem C3_formatter_boolean_becomes_timestamp (now : Nat) (d : DbPost) :
    (d.scoreExceeded75Date.isBoolean = true →
      (formatData "Posts" now d).scoreExceeded75Date = BoolOrDate.date now) ∧
    (d.scoreExceeded75Date.isBoolean = false →
      (formatData "Posts" now d).scoreExceeded75Date = d.scoreExceeded75Date) := by
  have hf : formatData "Posts" now d = formatPost now d := rfl
  rw [hf]
  constructor
  · intro h
    simp [formatPost, h]
    split <;> rfl
  · intro h
    simp [formatPost, h]
    split <;> rfl

/-- A Posts document with the boolean `true` sentinel. -/
def postBoolTrue : DbPost :=
  { _id := "w1", title := some "t", scoreExceeded75Date := BoolOrDate.bool true }

/-- A Posts document whose `scoreExceeded75Date` is already a date. -/
def postWithDate : DbPost :=
  { _id := "w2", title := some "t", scoreExceeded75Date := BoolOrDate.date 3 }

/-- Witness for C3: the boolean `true` sentinel becomes the timestamp,
and a date value is left unchanged. -/
theorem C3_formatter_boolean_becomes_timestamp_witness :
    (postBoolTrue.scoreExceeded75Date.isBoolean = true ∧
      (formatData "Posts" 7 postBoolTrue).scoreExceeded75Date =
        BoolOrDate.date 7) ∧
    (postWithDate.scoreExceeded75Date.isBoolean = false ∧
      (formatData "Posts" 7 postWithDate).scoreExceeded75Date =
        postWithDate.scoreExceeded75Date) :=
  ⟨⟨by decide, (C3_formatter_boolean_becomes_timestamp 7 postBoolTrue).1 (by decide)⟩,
    ⟨by decide, (C3_formatter_boolean_becomes_timestamp 7 postWithDate).2 (by decide)⟩⟩

/-- A Posts document with the boolean sentinel, in a one-document batch. -/
def postBoolTrue2 : DbPost :=
  { _id := "p2", title := some "t", scoreExceeded75Date := BoolOrDate.bool true }

/-- C4 counterexample: the Posts formatter assigns to the fields of its
argument object in place, so a batch object read from the source store is
changed by the formatting step whenever its `scoreExceeded75Date` holds
the boolean sentinel; the claim that the documents the pipeline was given
stay unchanged fails at this batch. -/
theorem C4_counterexample :
    sourceBatchAfterFormat "Posts" 5 [postBoolTrue2] ≠ [postBoolTrue2] := by
  decide

/-- C4 (amended): the run never writes to the source store, but the
in-memory source documents are not always left unchanged: for every
collection without a registered formatter the batch objects are unchanged,
and for Posts they are unchanged exactly when no document triggers one of
the formatter's two in-place rewrites (boolean `scoreExceeded75Date`,
falsy title). -/
theorem C4_source_documents_mutation (collectionName : String) (now : Nat)
    (documents : List DbPost) :
    (formatters collectionName = none →
      sourceBatchAfterFormat collectionName now documents = documents) ∧
    ((∀ d ∈ documents, d.scoreExceeded75Date.isBoolean = false ∧
        jsFalsyTitle d.title = false) →
      sourceBatchAfterFormat "Posts" now documents = documents) := by
  constructor
  · intro h
    unfold sourceBatchAfterFormat formatData
    rw [h]
    exact map_eq_self_of_eq _ documents (fun _ _ => rfl)
  · intro h
    unfold sourceBatchAfterFormat
    exact map_eq_self_of_eq _ documents
      (fun d hd => formatPost_eq_self now d (h d hd).1 (h d hd).2)

/-- A document no formatter rewrite fires on. -/
def postUntouched : DbPost :=
  { _id := "w5", title := some "u", scoreExceeded75Date := BoolOrDate.date 2 }

/-- Witness for C4: a formatter-less collection's batch is unchanged, and
a Posts batch with a date-valued `scoreExceeded75Date` and non-empty
title is unchanged. -/
theorem C4_source_documents_mutation_witness :
    (sourceBatchAfterFormat "Comments" 3 [postUntouched] = [postUntouched]) ∧
    (sourceBatchAfterFormat "Posts" 3 [postUntouched] = [postUntouched]) :=
  ⟨(C4_source_documents_mutation "Comments" 3 [postUntouched]).1 rfl,
    (C4_source_documents_mutation "Posts" 3 [postUntouched]).2
      (by intro d hd; rw [List.mem_singleton.mp hd]; exact ⟨rfl, rfl⟩)⟩

/-- A derived table with 164 usable fields, wider than the ~150 the
source comment assumes. -/
def wideTable : Table :=
  { name := "wide", fields := List.replicate 164 "f", indexes := [] }

/-- C6 counterexample: the driver's batch size is the constant 400
independent of the table; for a table with 164 usable fields the claimed
ceiling `batchSize × fieldCount ≤ maxParameters` fails
(400 × 164 = 65600 > 65534). -/
theorem C6_counterexample :
    ¬(batchSize * fieldCount wideTable ≤ maxParameters) := by
  simp only [batchSize, fieldCount, maxParameters, wideTable,
    List.length_replicate]
  decide

/-- C6 (amended): the driver always uses the fixed batch size 400; every
batch produced by the batching phase has at most 400 documents, so for a
table with at most 163 fields (the source comment documents ~150 as the
realistic maximum) every batch stays within the 65534-parameter ceiling;
the bound is not enforced for wider tables. -/
theorem C6_batch_parameter_ceiling (t : Table) (documents b : List DbPost)
    (hb : b ∈ chunks batchSize documents) (hf : fieldCount t ≤ 163) :
    b.length * fieldCount t ≤ maxParameters := by
  have h1 : b.length ≤ 400 := by
    have := chunks_length_le batchSize documents b hb
    simpa [batchSize] using this
  calc b.length * fieldCount t ≤ 400 * 163 := Nat.mul_le_mul h1 hf
    _ ≤ maxParameters := by decide

/-- A two-field table and a singleton batch for the C6 witness. -/
def smallTable : Table :=
  { name := "small", fields := ["_id", "title"], indexes := [] }

/-- A lone document for the C6 witness batch. -/
def postW6 : DbPost :=
  { _id := "w6", title := some "t", scoreExceeded75Date := BoolOrDate.absent }

/-- Witness for C6: a singleton batch against a two-field table. -/
theorem C6_batch_parameter_ceiling_witness :
    [postW6].length * fieldCount smallTable ≤ maxParameters :=
  C6_batch_parameter_ceiling smallTable [postW6] [postW6] (by decide) (by decide)

/-- C7: every batch INSERT is compiled with conflict strategy "ignore",
and under the "ignore" execution semantics the destination row set after
running the copy phase a second time on the unchanged source collection
(at any later migration timestamp) equals the row set after the first
run: re-running inserts no duplicate rows. -/
theorem C7_migration_idempotent (c : Collection) (dest : List DbPost)
    (now1 now2 : Nat) :
    (∀ documents : List DbPost,
      (batchInsertQuery c now1 documents).conflictStrategy = "ignore") ∧
    destAfterCopy (destAfterCopy dest c now1) c now2 =
      destAfterCopy dest c now1 := by
  refine ⟨fun _ => rfl, ?_⟩
  rw [destAfterCopy_eq, destAfterCopy_eq]
  apply insertIgnore_eq_of_ids_mem
  intro d hd
  rcases List.mem_map.mp hd with ⟨d0, hd0, rfl⟩
  rw [formatData_id]
  have hmem : formatData c.name now1 d0 ∈
      c.documents.map (formatData c.name now1) :=
    List.mem_map_of_mem _ hd0
  have h2 := row_mem_ids_insertIgnore _ dest _ hmem
  rw [formatData_id] at h2
  exact h2

/-- C10: a collection name with no entry in the formatter registry gets
the identity formatter, so the row list of the InsertQuery compiled for
any batch is the batch itself, unchanged. -/
theorem C10_missing_formatter_is_identity (c : Collection) (now : Nat)
    (b : List DbPost) (h : formatters c.name = none) :
    (batchInsertQuery c now b).rows = b := by
  unfold batchInsertQuery formatData
  rw [h]
  dsimp only
  exact map_eq_self_of_eq _ b (fun _ _ => rfl)

/-- A formatter-less collection for the C10 witness. -/
def commentsCollection : Collection :=
  { name := "Comments", schemaFields := ["_id"],
    table := { name := "Comments", fields := ["_id"], indexes := [] },
    documents := [] }

/-- A document for the C10 witness batch. -/
def postW7 : DbPost :=
  { _id := "w7", title := none, scoreExceeded75Date := BoolOrDate.bool true }

/-- Witness for C10: the `Comments` collection has no registry entry and
its batch is handed over unchanged. -/
theorem C10_missing_formatter_is_identity_witness :
    (batchInsertQuery commentsCollection 3 [postW7]).rows = [postW7] :=
  C10_missing_formatter_is_identity commentsCollection 3 [postW7] rfl

theorem filter_isIndexExec_map_execCreateIndex (l : List String) :
    (l.map Event.execCreateIndex).filter Event.isIndexExec =
      l.map Event.execCreateIndex :=
  List.filter_eq_self.mpr (by
    intro a ha
    rcases List.mem_map.mp ha with ⟨j, _, rfl⟩
    rfl)

theorem filter_isInsertBatch_map_execCreateIndex (l : List String) :
    (l.map Event.execCreateIndex).filter Event.isInsertBatch = [] :=
  List.filter_eq_nil_iff.mpr (by
    intro a ha
    rcases List.mem_map.mp ha with ⟨j, _, rfl⟩
    simp [Event.isInsertBatch])

/-- An index-execution oracle where every CREATE INDEX succeeds. -/
def okIndexExec : String → Except String Unit := fun _ => Except.ok ()

/-- A batch-execution oracle where every INSERT succeeds. -/
def okBatchExec : Nat → Except String Unit := fun _ => Except.ok ()

/-- A document used in the C1 counterexample collection. -/
def postC1 : DbPost :=
  { _id := "d1", title := some "t", scoreExceeded75Date := BoolOrDate.absent }

/-- A collection with two indexes and one document. -/
def idxCollection : Collection :=
  { name := "Posts", schemaFields := ["f1"],
    table := { name := "Posts", fields := ["f1"], indexes := ["idxA", "idxB"] },
    documents := [postC1] }

/-- An index-execution oracle where the first index fails. -/
def c1IndexExec : String → Except String Unit := fun i =>
  if i = "idxA" then Except.error "index creation failed" else Except.ok ()

/-- C1 counterexample: with two indexes of which the first fails to
create, the run aborts with the index-creation error: the second index is
never attempted and the data-copying phase never runs, refuting the claim
that per-index failures do not abort the run. -/
theorem C1_counterexample :
    (mongoToSql idxCollection 0 (Except.ok ()) c1IndexExec okBatchExec).outcome =
        Except.error "index creation failed" ∧
      (mongoToSql idxCollection 0 (Except.ok ())
          c1IndexExec okBatchExec).events.filter Event.isInsertBatch = [] ∧
      Event.execCreateIndex "idxB" ∉
        (mongoToSql idxCollection 0 (Except.ok ()) c1IndexExec okBatchExec).events :=
  ⟨rfl, by decide, by decide⟩

/-- C1 (corrected): the index-creation loop executes the CREATE INDEX
statements sequentially with no error handling, so when every index
before position p succeeds and index p's execution fails, the error
escapes the run: later indexes are not attempted and the copying phase
never runs. -/
theorem C1_index_failure_aborts_run (c : Collection) (now : Nat)
    (indexExec : String → Except String Unit)
    (batchExec : Nat → Except String Unit)
    (pre post : List String) (i e : String)
    (h1 : c.table.fields ≠ [])
    (hidxs : c.table.indexes = pre ++ i :: post)
    (hpre : ∀ j ∈ pre, indexExec j = Except.ok ())
    (hi : indexExec i = Except.error e) :
    (mongoToSql c now (Except.ok ()) indexExec batchExec).outcome =
        Except.error e ∧
      (mongoToSql c now (Except.ok ())
          indexExec batchExec).events.filter Event.isInsertBatch = [] ∧
      (mongoToSql c now (Except.ok ())
          indexExec batchExec).events.filter Event.isIndexExec =
        pre.map Event.execCreateIndex ++ [Event.execCreateIndex i] := by
  have hrun := runIndexes_first_error indexExec i post e hi pre hpre
  unfold mongoToSql
  rw [createTableCompile_ok c.table h1]
  dsimp only
  rw [hidxs, hrun]
  dsimp only
  refine ⟨rfl, ?_, ?_⟩
  · by_cases hs : (skippedFields c.schemaFields c.table.fields).length ≠ 0 <;>
      by_cases hz : (pre ++ i :: post).length = 0 <;>
      simp [hs, hz, Event.isInsertBatch, List.filter_append,
        filter_isInsertBatch_map_execCreateIndex]
  · by_cases hs : (skippedFields c.schemaFields c.table.fields).length ≠ 0 <;>
      by_cases hz : (pre ++ i :: post).length = 0 <;>
      simp [hs, hz, Event.isIndexExec, List.filter_append,
        filter_isIndexExec_map_execCreateIndex]

/-- A three-index collection for the C1 witness. -/
def c1wCollection : Collection :=
  { name := "Posts", schemaFields := ["f1"],
    table := { name := "P", fields := ["f1"], indexes := ["iGood", "iBad", "iAfter"] },
    documents := [] }

/-- An index-execution oracle failing exactly on index `iBad`. -/
def c1wIndexExec : String → Except String Unit := fun i =>
  if i = "iBad" then Except.error "boom" else Except.ok ()

/-- Witness for C1 (corrected): index `iBad`, in second position, fails
and the run aborts there. -/
theorem C1_index_failure_aborts_run_witness :
    (mongoToSql c1wCollection 4 (Except.ok ()) c1wIndexExec okBatchExec).outcome =
        Except.error "boom" ∧
      (mongoToSql c1wCollection 4 (Except.ok ())
          c1wIndexExec okBatchExec).events.filter Event.isInsertBatch = [] ∧
      (mongoToSql c1wCollection 4 (Except.ok ())
          c1wIndexExec okBatchExec).events.filter Event.isIndexExec =
        (["iGood"] : List String).map Event.execCreateIndex ++
          [Event.execCreateIndex "iBad"] :=
  C1_index_failure_aborts_run c1wCollection 4 c1wIndexExec okBatchExec
    ["iGood"] ["iAfter"] "iBad" "boom" (by decide) rfl
    (by intro j hj; rw [List.mem_singleton.mp hj]; rfl) rfl

/-- A collection whose derived table has zero usable fields. -/
def zeroFieldCollection : Collection :=
  { name := "Empty", schemaFields := ["a"],
    table := { name := "Empty", fields := [], indexes := [] },
    documents := [] }

/-- C2 counterexample: for a zero-usable-field collection the run does
not abort before CREATE TABLE compilation and raises no driver-level
SchemaError: the CREATE TABLE compilation step is reached (its event is
in the trace) and the propagated error is the CreateTableQuery
compilation failure itself. -/
theorem C2_counterexample :
    Event.compileCreateTable ∈
        (mongoToSql zeroFieldCollection 0 (Except.ok ())
          okIndexExec okBatchExec).events ∧
      (mongoToSql zeroFieldCollection 0 (Except.ok ())
          okIndexExec okBatchExec).outcome =
        Except.error "CreateTableQuery: zero fields" :=
  ⟨by decide, rfl⟩

/-- C2 (amended): for every collection whose derived table has zero
usable fields the run aborts with no execution against the destination
store, but the abort happens at (not before) CREATE TABLE compilation:
the driver performs no zero-field check of its own, the CreateTableQuery
compilation fails and that error is what propagates. -/
theorem C2_zero_fields_aborts_without_destination_mutation (c : Collection)
    (now : Nat) (createTableExec : Except String Unit)
    (indexExec : String → Except String Unit)
    (batchExec : Nat → Except String Unit)
    (h : c.table.fields = []) :
    (mongoToSql c now createTableExec indexExec batchExec).outcome =
        Except.error "CreateTableQuery: zero fields" ∧
      (mongoToSql c now createTableExec indexExec
          batchExec).events.filter Event.isDestinationExec = [] ∧
      Event.compileCreateTable ∈
        (mongoToSql c now createTableExec indexExec batchExec).events := by
  have hcomp : createTableCompile c.table =
      Except.error "CreateTableQuery: zero fields" := by
    unfold createTableCompile
    rw [if_pos (by simp [h])]
  unfold mongoToSql
  dsimp only
  rw [hcomp]
  refine ⟨rfl, ?_, ?_⟩ <;>
    by_cases hs : (skippedFields c.schemaFields c.table.fields).length ≠ 0 <;>
    simp [hs, Event.isDestinationExec]

/-- Witness for C2 (amended): the zero-field collection. -/
theorem C2_zero_fields_aborts_without_destination_mutation_witness :
    (mongoToSql zeroFieldCollection 1 (Except.ok ())
        okIndexExec okBatchExec).outcome =
        Except.error "CreateTableQuery: zero fields" ∧
      (mongoToSql zeroFieldCollection 1 (Except.ok ())
          okIndexExec okBatchExec).events.filter Event.isDestinationExec = [] ∧
      Event.compileCreateTable ∈
        (mongoToSql zeroFieldCollection 1 (Except.ok ())
          okIndexExec okBatchExec).events :=
  C2_zero_fields_aborts_without_destination_mutation zeroFieldCollection 1
    (Except.ok ()) okIndexExec okBatchExec rfl

/-- C5: when table creation and every index creation succeed, the run
completes with outcome ok whatever the batch execution results, and the
failed-identifier list is exactly the concatenation of the `_id`s of the
documents of those batches whose INSERT execution failed — documents of
successful batches never appear in it. -/
theorem C5_batch_failure_isolation (c : Collection) (now : Nat)
    (indexExec : String → Except String Unit)
    (batchExec : Nat → Except String Unit)
    (h1 : c.table.fields ≠ [])
    (hidx : (runIndexes indexExec c.table.indexes).2 = Except.ok ()) :
    (mongoToSql c now (Except.ok ()) indexExec batchExec).outcome =
        Except.ok () ∧
      (mongoToSql c now (Except.ok ()) indexExec batchExec).errorIds =
        (((chunks batchSize c.documents).enum.filter
            (fun p => !(isOkE (batchExec p.1)))).map
          (fun p => p.2.map DbPost._id)).flatten := by
  obtain ⟨ho, he⟩ := mongoToSql_copy_phase c now indexExec batchExec h1 hidx
  refine ⟨ho, ?_⟩
  rw [he, runBatches_snd c.name now batchExec (chunks batchSize c.documents) 0]
  rfl

/-- First document of the C5 witness collection. -/
def postA : DbPost :=
  { _id := "a", title := some "t", scoreExceeded75Date := BoolOrDate.absent }

/-- Second document of the C5 witness collection. -/
def postB : DbPost :=
  { _id := "b", title := some "u", scoreExceeded75Date := BoolOrDate.absent }

/-- A two-document collection for the C5 witness. -/
def c5Collection : Collection :=
  { name := "Widgets", schemaFields := ["f1"],
    table := { name := "W", fields := ["f1"], indexes := [] },
    documents := [postA, postB] }

/-- A batch-execution oracle where every INSERT fails. -/
def badBatchExec : Nat → Except String Unit := fun _ =>
  Except.error "bad batch"

/-- Witness for C5: both documents fall into one failing batch; the run
still completes and reports exactly their identifiers. -/
theorem C5_batch_failure_isolation_witness :
    (mongoToSql c5Collection 9 (Except.ok ()) okIndexExec badBatchExec).outcome =
        Except.ok () ∧
      (mongoToSql c5Collection 9 (Except.ok ())
          okIndexExec badBatchExec).errorIds =
        (((chunks batchSize c5Collection.documents).enum.filter
            (fun p => !(isOkE (badBatchExec p.1)))).map
          (fun p => p.2.map DbPost._id)).flatten :=
  C5_batch_failure_isolation c5Collection 9 okIndexExec badBatchExec
    (by decide) rfl

/-- C8: if executing the CREATE TABLE statement fails, the whole run
fails with the same error propagated verbatim, and neither any index
creation nor any batch INSERT is attempted. -/
theorem C8_create_table_failure_aborts (c : Collection) (now : Nat)
    (indexExec : String → Except String Unit)
    (batchExec : Nat → Except String Unit) (e : String)
    (h1 : c.table.fields ≠ []) :
    (mongoToSql c now (Except.error e) indexExec batchExec).outcome =
        Except.error e ∧
      (mongoToSql c now (Except.error e) indexExec
          batchExec).events.filter Event.isIndexExec = [] ∧
      (mongoToSql c now (Except.error e) indexExec
          batchExec).events.filter Event.isInsertBatch = [] := by
  unfold mongoToSql
  rw [createTableCompile_ok c.table h1]
  dsimp only
  refine ⟨rfl, ?_, ?_⟩ <;>
    by_cases hs : (skippedFields c.schemaFields c.table.fields).length ≠ 0 <;>
    simp [hs, Event.isIndexExec, Event.isInsertBatch]

/-- A well-formed collection for the C8 witness. -/
def c8Collection : Collection :=
  { name := "Gadgets", schemaFields := ["f1"],
    table := { name := "G", fields := ["f1"], indexes := ["ix"] },
    documents := [postC1] }

/-- Witness for C8: a failing CREATE TABLE execution aborts the run with
the same error. -/
theorem C8_create_table_failure_aborts_witness :
    (mongoToSql c8Collection 0 (Except.error "create failed")
        okIndexExec okBatchExec).outcome = Except.error "create failed" ∧
      (mongoToSql c8Collection 0 (Except.error "create failed")
          okIndexExec okBatchExec).events.filter Event.isIndexExec = [] ∧
      (mongoToSql c8Collection 0 (Except.error "create failed")
          okIndexExec okBatchExec).events.filter Event.isInsertBatch = [] :=
  C8_create_table_failure_aborts c8Collection 0 okIndexExec okBatchExec
    "create failed" (by decide)

/-- C9: the computed skipped-field list contains exactly the schema
fields absent from the derived table, and whenever it is non-empty every
run's trace contains the warning event carrying exactly that list — a
skip is never silent. -/
theorem C9_skipped_fields_reported (schemaFields tableFields : List String)
    (f : String) (c : Collection) (now : Nat) (cte : Except String Unit)
    (indexExec : String → Except String Unit)
    (batchExec : Nat → Except String Unit) :
    (f ∈ skippedFields schemaFields tableFields ↔
      f ∈ schemaFields ∧ f ∉ tableFields) ∧
    (skippedFields c.schemaFields c.table.fields ≠ [] →
      Event.warnSkippedFields (skippedFields c.schemaFields c.table.fields) ∈
        (mongoToSql c now cte indexExec batchExec).events) := by
  refine ⟨mem_skippedFields_iff schemaFields tableFields f, ?_⟩
  intro h
  have hs : (skippedFields c.schemaFields c.table.fields).length ≠ 0 :=
    fun hl => h (List.length_eq_zero.mp hl)
  unfold mongoToSql
  dsimp only
  cases hcomp : createTableCompile c.table with
  | error e => simp [hs]
  | ok u =>
    cases u
    cases cte with
    | error e => simp [hs]
    | ok u =>
      cases u
      cases hidx : (runIndexes indexExec c.table.indexes).2 with
      | error e => simp [hs]
      | ok u =>
        cases u
        simp [hs]

/-- A collection with one schema field absent from the derived table. -/
def c9Collection : Collection :=
  { name := "Things", schemaFields := ["kept", "dropped"],
    table := { name := "T", fields := ["kept"], indexes := [] },
    documents := [] }

/-- Witness for C9: field `dropped` is skipped and warned about. -/
theorem C9_skipped_fields_reported_witness :
    ("dropped" ∈ skippedFields ["kept", "dropped"] ["kept"] ↔
      "dropped" ∈ (["kept", "dropped"] : List String) ∧
        "dropped" ∉ (["kept"] : List String)) ∧
    Event.warnSkippedFields
        (skippedFields c9Collection.schemaFields c9Collection.table.fields) ∈
      (mongoToSql c9Collection 0 (Except.ok ())
        okIndexExec okBatchExec).events :=
  ⟨(C9_skipped_fields_reported ["kept", "dropped"] ["kept"] "dropped"
      c9Collection 0 (Except.ok ()) okIndexExec okBatchExec).1,
    (C9_skipped_fields_reported ["kept", "dropped"] ["kept"] "dropped"
      c9Collection 0 (Except.ok ()) okIndexExec okBatchExec).2 (by decide)⟩

end MongoToSql
